import Mathlib

/-!
# fruit_detection: the inference pipeline of `main/main_functions.cc`

A shallow embedding of `setup`, `loop` and `run_inference` and of the
profiling block of `run_inference`.

* The three file-scope pointers `model`, `interpreter`, `input`, the pointer
  `tensor_arena` and the profiling counters form the `State`.
* Everything the file calls but does not define (PSRAM size, the model blob,
  `heap_caps_malloc`, `AllocateTensors`, `InitCamera`, `GetImage`, `Invoke`,
  `esp_timer_get_time`) is an oracle of `Env`; every theorem quantifies over
  all oracles.
* The constants of `model_settings.h` and the build flags are fields of
  `Config`.
* Calls with an observable effect are appended to `State.trace`.
* `float` values are only copied, never computed with, so the element type of
  tensors and buffers is a type parameter `α`.
* Dereferencing a null pointer and indexing past the end of a buffer are
  undefined behaviour in C++; here they end the run with a `Crash` that carries
  the state reached so far.
* The `double` arithmetic of the profiling report is embedded over `ℚ`.
* The `int` constants are `Nat` and the `long long` counters are `Int`: the
  file only multiplies two image dimensions, subtracts two timestamps and
  stores zero.
-/

namespace FruitDetection

/-! ## Data model -/

/-- Status codes returned by the TensorFlow Lite Micro calls; the source only
ever compares them with `kTfLiteOk`. -/
inductive TfLiteStatus where
  | kTfLiteOk
  | kTfLiteError
  | kTfLiteDelegateError
  deriving DecidableEq, Repr

/-- Operator kinds registered with the `MicroMutableOpResolver<7>` and timed by
the profiling counters. -/
inductive OpKind where
  | Quantize
  | Conv2D
  | MaxPool2D
  | Reshape
  | FullyConnected
  | Softmax
  | Dequantize
  deriving DecidableEq, Repr

/-- Diagnostic lines written with `printf` / `MicroPrintf` (numeric arguments
of the heap statistics are not recorded). -/
inductive Msg where
  | psram_not_found
  | total_heap_size
  | free_heap_size
  | total_psram_size
  | free_psram_size
  | schema_version_mismatch (found supported : Nat)
  | couldnt_allocate_memory (bytes : Nat)
  | free_heap_size_after_allocation
  | free_psram_size_after_allocation
  | allocate_tensors_failed
  | init_camera_failed
  | image_capture_failed
  | invoke_failed
  deriving DecidableEq, Repr

/-- Observable actions, in program order. -/
inductive Event (α : Type) where
  | log (m : Msg)
  | heap_caps_malloc (bytes : Nat)
  | add_op (k : OpKind)
  | construct_interpreter (arena_bytes : Nat)
  | allocate_tensors
  | init_camera
  | get_image (cols rows channels : Nat)
  | invoke
  | stats_times (micros : List Int)
  | stats_intensity (values : List ℚ)
  | stats_performance (values : List ℚ)
  | respond (scores : List α) (labels : List String)
  | task_delay (ticks : Nat)

/-- The part of `tflite::MicroInterpreter` the pipeline touches: the `float`
storage of input tensor 0 and of output tensor 0. -/
structure MicroInterpreter (α : Type) where
  input0 : List α
  output0 : List α

/-- Profiling counters: the two file-scope definitions `total_time`,
`start_time` and the eight `extern long long` accumulators. -/
structure Counters where
  total_time : Int
  start_time : Int
  act_total_time : Int
  q_total_time : Int
  conv_total_time : Int
  pooling_total_time : Int
  resh_total_time : Int
  fc_total_time : Int
  softmax_total_time : Int
  dq_total_time : Int
  deriving DecidableEq, Repr

/-- Build flags and the constants of `model_settings.h` /
`schema_generated.h`. -/
structure Config where
  CLI_ONLY_INFERENCE : Bool
  COLLECT_CPU_STATS : Bool
  CONFIG_IDF_TARGET_ESP32S3 : Bool
  TFLITE_SCHEMA_VERSION : Nat
  kNumCols : Nat
  kNumRows : Nat
  kNumChannels : Nat
  kCategoryCount : Nat
  kCategoryLabels : List String

/-- Outcomes of the external calls. -/
structure Env (α : Type) where
  esp_psram_get_size : Nat
  model_version : Nat
  heap_caps_malloc : Nat → Option Nat
  AllocateTensors : MicroInterpreter α → TfLiteStatus × MicroInterpreter α
  InitCamera : TfLiteStatus
  GetImage : Nat → Nat → Nat → List α → TfLiteStatus × List α
  Invoke : MicroInterpreter α → Counters → TfLiteStatus × MicroInterpreter α × Counters
  esp_timer_get_time : Nat → Int

/-- The file-scope variables. `none` is a null pointer. `model` holds the
version field of the blob it points to; `interpreter` holds the object it
points to (the function-local static); `input` holds the tensor index it was
obtained with. `timer_reads` counts calls of `esp_timer_get_time`. -/
structure State (α : Type) where
  model : Option Nat
  interpreter : Option (MicroInterpreter α)
  input : Option Nat
  tensor_arena : Option Nat
  counters : Counters
  timer_reads : Nat
  trace : List (Event α)

/-- Undefined behaviour the embedding makes explicit. -/
inductive Fault where
  | null_dereference
  | out_of_bounds
  deriving DecidableEq, Repr

/-- A run that hit undefined behaviour, with the state reached before it. -/
structure Crash (α : Type) where
  fault : Fault
  state : State α

/-- Line 118-119: `long long total_time = 0; long long start_time = 0;`; the
extern counters start at zero in their defining files as well. -/
def Counters.zero : Counters :=
  ⟨0, 0, 0, 0, 0, 0, 0, 0, 0, 0⟩

/-- Lines 19-21 and 30: all pointers null at program start. -/
def State.init {α : Type} : State α :=
  { model := none, interpreter := none, input := none, tensor_arena := none,
    counters := Counters.zero, timer_reads := 0, trace := [] }

/-- Lines 23-27. -/
def scratchBufSize (cfg : Config) : Nat :=
  if cfg.CONFIG_IDF_TARGET_ESP32S3 then 40 * 1024 else 0

/-- Line 29. -/
def kTensorArenaSize (cfg : Config) : Nat :=
  176 * 1024 + scratchBufSize cfg

/-- Appends events to the trace. -/
def State.emit {α : Type} (s : State α) (es : List (Event α)) : State α :=
  { s with trace := s.trace ++ es }

/-- Lines 67-73: the seven `Add...` calls on the op resolver, in order. -/
def registered_ops : List OpKind :=
  [.Quantize, .Conv2D, .MaxPool2D, .Reshape, .FullyConnected, .Softmax, .Dequantize]

/-! ## setup -/

/-- Lines 33-94. -/
def setup {α : Type} (cfg : Config) (env : Env α) (s : State α) : State α :=
  -- 35-38
  if env.esp_psram_get_size = 0 then
    s.emit [.log .psram_not_found]
  else
    -- 40-43
    let s := s.emit [.log .total_heap_size, .log .free_heap_size,
                     .log .total_psram_size, .log .free_psram_size]
    -- 46
    let s := { s with model := some env.model_version }
    -- 47-51
    if env.model_version ≠ cfg.TFLITE_SCHEMA_VERSION then
      s.emit [.log (.schema_version_mismatch env.model_version cfg.TFLITE_SCHEMA_VERSION)]
    else
      -- 54-56
      let s :=
        match s.tensor_arena with
        | none =>
          { s with tensor_arena := env.heap_caps_malloc (kTensorArenaSize cfg),
                   trace := s.trace ++ [Event.heap_caps_malloc (kTensorArenaSize cfg)] }
        | some _ => s
      -- 57-60
      match s.tensor_arena with
      | none => s.emit [.log (.couldnt_allocate_memory (kTensorArenaSize cfg))]
      | some _ =>
        -- 62-63
        let s := s.emit [.log .free_heap_size_after_allocation,
                         .log .free_psram_size_after_allocation]
        -- 66-73
        let s := s.emit (registered_ops.map Event.add_op)
        -- 76-77: the static interpreter is constructed on the first pass only
        let s :=
          match s.interpreter with
          | none =>
            { s with interpreter := some ⟨[], []⟩,
                     trace := s.trace ++ [Event.construct_interpreter (kTensorArenaSize cfg)] }
          | some _ => s
        match s.interpreter with
        | none => s
        | some it =>
          -- 79
          let r := env.AllocateTensors it
          let s := { s with interpreter := some r.2, trace := s.trace ++ [Event.allocate_tensors] }
          -- 80-83
          if r.1 ≠ .kTfLiteOk then
            s.emit [.log .allocate_tensors_failed]
          else
            -- 85
            let s := { s with input := some 0 }
            -- 87-93
            if cfg.CLI_ONLY_INFERENCE then s
            else
              let s := s.emit [.init_camera]
              if env.InitCamera ≠ .kTfLiteOk then
                s.emit [.log .init_camera_failed]
              else s

/-! ## Tensor access -/

/-- The storage `input->data.f` points to: needs `input` non-null (and the
interpreter object it points into). -/
def input_data {α : Type} (s : State α) : Option (List α) :=
  match s.input, s.interpreter with
  | some _, some it => some it.input0
  | _, _ => none

/-- Replaces the contents of the input tensor. -/
def set_input_data {α : Type} (s : State α) (data : List α) : State α :=
  match s.interpreter with
  | some it => { s with interpreter := some { it with input0 := data } }
  | none => s

/-- Lines 132-135: `for (int i = 0; i < kNumCols * kNumRows; i++)
input->data.f[i] = ((float*) ptr)[i];`, with `remaining` iterations left and
loop variable `i`. An iteration with `input` null is a null dereference
whatever the buffer holds; otherwise the buffer element is read and stored. -/
def copy_input {α : Type} (ptr : List α) : Nat → Nat → State α → Except (Crash α) (State α)
  | 0, _, s => .ok s
  | remaining + 1, i, s =>
    match input_data s with
    | none => .error ⟨.null_dereference, s⟩
    | some data =>
      match ptr[i]? with
      | none => .error ⟨.out_of_bounds, s⟩
      | some v =>
        if i < data.length then
          copy_input ptr remaining (i + 1) (set_input_data s (data.set i v))
        else .error ⟨.out_of_bounds, s⟩

/-- Lines 107-110 and 208-211: `for (int i = 0; i < kCategoryCount; ++i)
fruit_scores[i] = output->data.f[i];`, with `remaining` iterations left, loop
variable `i` and the entries of `fruit_scores` filled so far. -/
def read_scores {α : Type} (output : List α) : Nat → Nat → List α → Option (List α)
  | 0, _, fruit_scores => some fruit_scores
  | remaining + 1, i, fruit_scores =>
    match output[i]? with
    | none => none
    | some v => read_scores output remaining (i + 1) (fruit_scores ++ [v])

/-- Lines 102-104 and 142-144: `if (kTfLiteOk != interpreter->Invoke())
MicroPrintf("Invoke failed.");`. -/
def invoke_step {α : Type} (env : Env α) (s : State α) : Except (Crash α) (State α) :=
  match s.interpreter with
  | none => .error ⟨.null_dereference, s⟩
  | some it =>
    let r := env.Invoke it s.counters
    let s : State α :=
      { s with interpreter := some r.2.1, counters := r.2.2, trace := s.trace ++ [Event.invoke] }
    if r.1 ≠ .kTfLiteOk then .ok (s.emit [.log .invoke_failed])
    else .ok s

/-- Lines 106-112 and 203-212: read `interpreter->output(0)`, fill
`fruit_scores`, call `RespondToDetection(fruit_scores, kCategoryLabels)`. -/
def respond_step {α : Type} (cfg : Config) (s : State α) : Except (Crash α) (State α) :=
  match s.interpreter with
  | none => .error ⟨.null_dereference, s⟩
  | some it =>
    match read_scores it.output0 cfg.kCategoryCount 0 [] with
    | none => .error ⟨.out_of_bounds, s⟩
    | some fruit_scores => .ok (s.emit [.respond fruit_scores cfg.kCategoryLabels])

/-! ## loop (pull mode, built when `CLI_ONLY_INFERENCE` is not defined) -/

/-- Lines 97-114. -/
def loop {α : Type} (cfg : Config) (env : Env α) (s : State α) : Except (Crash α) (State α) :=
  -- 98: the argument `input->data.f`
  match input_data s with
  | none => .error ⟨.null_dereference, s⟩
  | some data =>
    let r := env.GetImage cfg.kNumCols cfg.kNumRows cfg.kNumChannels data
    let s := (set_input_data s r.2).emit
      [.get_image cfg.kNumCols cfg.kNumRows cfg.kNumChannels]
    -- 98-100
    let s := if r.1 ≠ .kTfLiteOk then s.emit [.log .image_capture_failed] else s
    -- 102-104
    match invoke_step env s with
    | .error c => .error c
    | .ok s =>
      -- 106-112
      match respond_step cfg s with
      | .error c => .error c
      | .ok s =>
        -- 113
        .ok (s.emit [.task_delay 1])

/-! ## Profiling block of run_inference (built when `COLLECT_CPU_STATS` is defined) -/

/-- Line 158. -/
def quantize_operational_intensity : ℚ := 1387 / (46080 : ℚ)
/-- Line 159. -/
def conv2d_operational_intensity : ℚ := 144 / ((150800 + 104880 + 59776 : ℕ) : ℚ)
/-- Line 160. -/
def maxpool2d_operational_intensity : ℚ := 145 / ((176720 + 80288 + 32000 : ℕ) : ℚ)
/-- Line 161. -/
def reshape_operational_intensity : ℚ := 395 / (12808 : ℚ)
/-- Line 162. -/
def fullyconnected_operational_intensity : ℚ := 125 / ((1644080 + 33664 + 527 : ℕ) : ℚ)
/-- Line 163. -/
def softmax_operational_intensity : ℚ := 1219 / (6 : ℚ)
/-- Line 164. -/
def dequantize_operational_intensity : ℚ := 442 / (15 : ℚ)

/-- Line 167. Where the counter is zero the C++ quotient is infinite, while
division by zero in `ℚ` gives zero: the embedding is exact for non-zero
counters only. The same holds for the six definitions below. -/
def quantize_performance (c : Counters) : ℚ := 1387 / ((c.q_total_time : ℚ) / 1000000)
/-- Line 168. -/
def conv2d_performance (c : Counters) : ℚ := 144 / ((c.conv_total_time : ℚ) / 1000000)
/-- Line 169. -/
def maxpool2d_performance (c : Counters) : ℚ := 145 / ((c.pooling_total_time : ℚ) / 1000000)
/-- Line 170. -/
def reshape_performance (c : Counters) : ℚ := 395 / ((c.resh_total_time : ℚ) / 1000000)
/-- Line 171. -/
def fullyconnected_performance (c : Counters) : ℚ := 125 / ((c.fc_total_time : ℚ) / 1000000)
/-- Line 172. -/
def softmax_performance (c : Counters) : ℚ := 1219 / ((c.softmax_total_time : ℚ) / 1000000)
/-- Line 173. -/
def dequantize_performance (c : Counters) : ℚ := 442 / ((c.dq_total_time : ℚ) / 1000000)

/-- Lines 192-200. The name `total_time` in line 192 is the local variable
declared in line 147, which hides the file-scope `total_time` of line 118; so
the assignment of line 192 changes no counter, and lines 193-200 zero the
eight extern counters. -/
def reset_times (c : Counters) : Counters :=
  { c with act_total_time := 0, q_total_time := 0, conv_total_time := 0,
           pooling_total_time := 0, resh_total_time := 0, fc_total_time := 0,
           softmax_total_time := 0, dq_total_time := 0 }

/-- Lines 147-200, given the local `start_time` of line 139. -/
def report_and_reset {α : Type} (env : Env α) (start_time : Int) (s : State α) : State α :=
  -- 147: a local `total_time`
  let total_time : Int := env.esp_timer_get_time s.timer_reads - start_time
  let s : State α := { s with timer_reads := s.timer_reads + 1 }
  let c := s.counters
  -- 148-155
  let s := s.emit [.stats_times [c.q_total_time, c.conv_total_time, c.pooling_total_time,
    c.resh_total_time, c.fc_total_time, c.softmax_total_time, c.dq_total_time, total_time]]
  -- 175-181
  let s := s.emit [.stats_intensity [quantize_operational_intensity,
    conv2d_operational_intensity, maxpool2d_operational_intensity,
    reshape_operational_intensity, fullyconnected_operational_intensity,
    softmax_operational_intensity, dequantize_operational_intensity]]
  -- 183-189
  let s := s.emit [.stats_performance [quantize_performance c, conv2d_performance c,
    maxpool2d_performance c, reshape_performance c, fullyconnected_performance c,
    softmax_performance c, dequantize_performance c]]
  -- 192-200
  { s with counters := reset_times s.counters }

/-! ## run_inference (push mode) -/

/-- Lines 130-213; `ptr` is the caller's buffer seen as `float*`. -/
def run_inference {α : Type} (cfg : Config) (env : Env α) (s : State α) (ptr : List α) :
    Except (Crash α) (State α) :=
  -- 132-135
  match copy_input ptr (cfg.kNumCols * cfg.kNumRows) 0 s with
  | .error c => .error c
  | .ok s =>
    -- 138-140: a local `start_time`
    let start_time : Int := if cfg.COLLECT_CPU_STATS then env.esp_timer_get_time s.timer_reads else 0
    let s : State α :=
      if cfg.COLLECT_CPU_STATS then { s with timer_reads := s.timer_reads + 1 } else s
    -- 142-144
    match invoke_step env s with
    | .error c => .error c
    | .ok s =>
      -- 146-201
      let s := if cfg.COLLECT_CPU_STATS then report_and_reset env start_time s else s
      -- 203-212
      respond_step cfg s

/-! ## Observations on traces and results -/

/-- Number of `Invoke` calls in a trace. -/
def invokes {α : Type} (tr : List (Event α)) : Nat :=
  (tr.filter (fun e => match e with | .invoke => true | _ => false)).length

/-- The `(scores, labels)` pairs handed to `RespondToDetection`, in order. -/
def responses {α : Type} (tr : List (Event α)) : List (List α × List String) :=
  tr.filterMap (fun e => match e with | .respond sc lb => some (sc, lb) | _ => none)

/-- The diagnostic lines in a trace, in order. -/
def logs {α : Type} (tr : List (Event α)) : List Msg :=
  tr.filterMap (fun e => match e with | .log m => some m | _ => none)

/-- Number of `heap_caps_malloc` calls in a trace. -/
def mallocs {α : Type} (tr : List (Event α)) : Nat :=
  (tr.filter (fun e => match e with | .heap_caps_malloc _ => true | _ => false)).length

/-- Number of `AllocateTensors` calls in a trace. -/
def tensor_allocations {α : Type} (tr : List (Event α)) : Nat :=
  (tr.filter (fun e => match e with | .allocate_tensors => true | _ => false)).length

/-- The state a call ends in: the returned state, or the state at the crash. -/
def final_state {α : Type} (r : Except (Crash α) (State α)) : State α :=
  match r with
  | .ok s => s
  | .error c => c.state

/-- The fault a call ended with, if any. -/
def fault_of {α : Type} (r : Except (Crash α) (State α)) : Option Fault :=
  match r with
  | .ok _ => none
  | .error c => some c.fault

/-! ## Concrete configurations, used to evaluate the code -/

/-- A 2 x 2 single-channel, two-category build without profiling. -/
def cfg_small : Config :=
  { CLI_ONLY_INFERENCE := false, COLLECT_CPU_STATS := false,
    CONFIG_IDF_TARGET_ESP32S3 := true, TFLITE_SCHEMA_VERSION := 3,
    kNumCols := 2, kNumRows := 2, kNumChannels := 1, kCategoryCount := 2,
    kCategoryLabels := ["apple", "banana"] }

/-- All external calls succeed: the model has the supported version, the
tensors get 4 input and 2 output elements, the camera delivers 7s, and
`Invoke` writes the sum of the input and a constant to the output. -/
def env_ok : Env Int :=
  { esp_psram_get_size := 8388608
    model_version := 3
    heap_caps_malloc := fun _ => some 1024
    AllocateTensors := fun _ => (.kTfLiteOk, ⟨[0, 0, 0, 0], [0, 0]⟩)
    InitCamera := .kTfLiteOk
    GetImage := fun c r ch _ => (.kTfLiteOk, List.replicate (c * r * ch) 7)
    Invoke := fun it c => (.kTfLiteOk, { it with output0 := [it.input0.sum, 1] }, c)
    esp_timer_get_time := fun n => 1000 * n }

/-- As `env_ok`, without PSRAM. -/
def env_no_psram : Env Int :=
  { env_ok with esp_psram_get_size := 0 }

/-- As `env_ok`, with a model of schema version 2. -/
def env_old_model : Env Int :=
  { env_ok with model_version := 2 }

/-- As `env_ok`, with a camera that fails and leaves the buffer alone. -/
def env_no_image : Env Int :=
  { env_ok with GetImage := fun _ _ _ data => (.kTfLiteError, data) }

/-- As `env_ok`, with an `Invoke` that fails and changes nothing. -/
def env_invoke_fails : Env Int :=
  { env_ok with Invoke := fun it c => (.kTfLiteError, it, c) }

/-- The state after a successful `setup`, with an empty trace. -/
def ready_small : State Int :=
  { (setup cfg_small env_ok State.init) with trace := [] }

/-- The interpreter as `Invoke` finds it in a pull-mode cycle: the input
tensor holds what `GetImage` left in it. -/
def pull_interpreter {α : Type} (cfg : Config) (env : Env α) (it : MicroInterpreter α) :
    MicroInterpreter α :=
  { it with input0 := (env.GetImage cfg.kNumCols cfg.kNumRows cfg.kNumChannels it.input0).2 }

/-- The interpreter as `Invoke` finds it in a push-mode call: the first
`kNumCols * kNumRows` elements of the input tensor come from the buffer, the
rest is as before. -/
def push_interpreter {α : Type} (cfg : Config) (ptr : List α) (it : MicroInterpreter α) :
    MicroInterpreter α :=
  { it with input0 := ptr.take (cfg.kNumCols * cfg.kNumRows) ++
                      it.input0.drop (cfg.kNumCols * cfg.kNumRows) }

/-- Lines 158-164 by operator kind. -/
def operational_intensity : OpKind → ℚ
  | .Quantize => quantize_operational_intensity
  | .Conv2D => conv2d_operational_intensity
  | .MaxPool2D => maxpool2d_operational_intensity
  | .Reshape => reshape_operational_intensity
  | .FullyConnected => fullyconnected_operational_intensity
  | .Softmax => softmax_operational_intensity
  | .Dequantize => dequantize_operational_intensity

/-- Lines 167-173 by operator kind. -/
def performance (c : Counters) : OpKind → ℚ
  | .Quantize => quantize_performance c
  | .Conv2D => conv2d_performance c
  | .MaxPool2D => maxpool2d_performance c
  | .Reshape => reshape_performance c
  | .FullyConnected => fullyconnected_performance c
  | .Softmax => softmax_performance c
  | .Dequantize => dequantize_performance c

/-- The counter (microseconds) that lines 167-173 read for each kind. -/
def elapsed_micros (c : Counters) : OpKind → Int
  | .Quantize => c.q_total_time
  | .Conv2D => c.conv_total_time
  | .MaxPool2D => c.pooling_total_time
  | .Reshape => c.resh_total_time
  | .FullyConnected => c.fc_total_time
  | .Softmax => c.softmax_total_time
  | .Dequantize => c.dq_total_time

/-- The integer literal that lines 167-173 divide by the elapsed seconds: the
operation count of each kind. -/
def operation_count : OpKind → ℕ
  | .Quantize => 1387
  | .Conv2D => 144
  | .MaxPool2D => 145
  | .Reshape => 395
  | .FullyConnected => 125
  | .Softmax => 1219
  | .Dequantize => 442

/-- The integer expression under the cast to `double` in lines 158-164: the
memory traffic of each kind. -/
def memory_traffic : OpKind → ℕ
  | .Quantize => 46080
  | .Conv2D => 150800 + 104880 + 59776
  | .MaxPool2D => 176720 + 80288 + 32000
  | .Reshape => 12808
  | .FullyConnected => 1644080 + 33664 + 527
  | .Softmax => 6
  | .Dequantize => 15

/-- As `cfg_small`, built with `COLLECT_CPU_STATS`. -/
def cfg_stats : Config :=
  { cfg_small with COLLECT_CPU_STATS := true }

/-- A ready pipeline in which every profiling counter is non-zero. -/
def ready_stats : State Int :=
  { ready_small with counters := ⟨5, 6, 7, 8, 9, 10, 11, 12, 13, 14⟩ }

/-- As `env_ok`, with operator routines that add their running time to the
eight extern counters during `Invoke`. -/
def env_profiled : Env Int :=
  { env_ok with
    Invoke := fun it c =>
      (.kTfLiteOk, { it with output0 := [it.input0.sum, 1] },
       { c with act_total_time := c.act_total_time + 3, q_total_time := c.q_total_time + 8,
                conv_total_time := c.conv_total_time + 9,
                pooling_total_time := c.pooling_total_time + 10,
                resh_total_time := c.resh_total_time + 11,
                fc_total_time := c.fc_total_time + 12,
                softmax_total_time := c.softmax_total_time + 13,
                dq_total_time := c.dq_total_time + 14 }) }

/-- A ready pipeline whose eight extern counters hold values left by earlier
operator runs; the file-scope `total_time` and `start_time` hold the zero of
lines 118-119. -/
def ready_profiled : State Int :=
  { ready_small with counters := ⟨0, 0, 7, 8, 9, 10, 11, 12, 13, 14⟩ }

/-! ## Lemmas on the loops -/


theorem read_scores_eq {α : Type} (output : List α) :
    ∀ (k i : Nat) (acc : List α), i + k ≤ output.length →
      read_scores output k i acc = some (acc ++ (output.drop i).take k) := by
  intro k
  induction k with
  | zero => intro i acc _; simp [read_scores]
  | succ k ih =>
    intro i acc h
    have hi : i < output.length := by omega
    rw [read_scores, List.getElem?_eq_getElem hi]
    simp only
    rw [ih (i + 1) _ (by omega), List.drop_eq_getElem_cons hi, List.take_succ_cons,
      List.append_assoc]
    rfl

theorem read_scores_zero {α : Type} (output : List α) (k : Nat) (h : k ≤ output.length) :
    read_scores output k 0 [] = some (output.take k) := by
  simpa using read_scores_eq output k 0 [] (by omega)

theorem input_data_none {α : Type} (s : State α) (h : s.interpreter = none ∨ s.input = none) :
    input_data s = none := by
  unfold input_data
  rcases h with h | h
  · rw [h]; cases s.input <;> rfl
  · rw [h]

theorem input_data_ready {α : Type} (s : State α) (it : MicroInterpreter α) (h : Nat)
    (hi : s.interpreter = some it) (hin : s.input = some h) :
    input_data s = some it.input0 := by
  simp [input_data, hi, hin]

theorem set_input_data_ready {α : Type} (s : State α) (it : MicroInterpreter α)
    (hi : s.interpreter = some it) (data : List α) :
    set_input_data s data = { s with interpreter := some { it with input0 := data } } := by
  simp [set_input_data, hi]

theorem copy_input_ok {α : Type} (ptr : List α) (h : Nat) :
    ∀ (k i : Nat) (s : State α) (it : MicroInterpreter α),
      s.interpreter = some it → s.input = some h →
      i + k ≤ ptr.length → i + k ≤ it.input0.length →
      ∃ L : List α,
        copy_input ptr k i s = .ok { s with interpreter := some { it with input0 := L } } ∧
        L.length = it.input0.length ∧
        ∀ j, L[j]? = if i ≤ j ∧ j < i + k then ptr[j]? else it.input0[j]? := by
  intro k
  induction k with
  | zero =>
    intro i s it hi _ _ _
    refine ⟨it.input0, ?_, rfl, ?_⟩
    · simp [copy_input, ← hi]
    · intro j
      have : ¬ (i ≤ j ∧ j < i) := by omega
      simp [this]
  | succ k ih =>
    intro i s it hi hin hp hd
    have hip : i < ptr.length := by omega
    have hid : i < it.input0.length := by omega
    obtain ⟨L, hL, hlen, hget⟩ :=
      ih (i + 1) { s with interpreter := some { it with input0 := it.input0.set i ptr[i] } }
        { it with input0 := it.input0.set i ptr[i] } rfl hin (by omega)
        (by simp only [List.length_set]; omega)
    refine ⟨L, ?_, ?_, ?_⟩
    · rw [copy_input, input_data_ready s it h hi hin, List.getElem?_eq_getElem hip]
      simp only
      rw [if_pos hid, set_input_data_ready s it hi]
      simpa using hL
    · simpa using hlen
    · intro j
      rw [hget j]
      simp only [List.getElem?_set]
      by_cases hji : i = j
      · subst hji
        have h1 : ¬ (i + 1 ≤ i ∧ i < i + 1 + k) := by omega
        have h2 : i ≤ i ∧ i < i + (k + 1) := by omega
        simp [h1, h2, hid, hip]
      · by_cases hr : i + 1 ≤ j ∧ j < i + 1 + k
        · have h2 : i ≤ j ∧ j < i + (k + 1) := by omega
          simp [hr, h2]
        · have h2 : ¬ (i ≤ j ∧ j < i + (k + 1)) := by omega
          simp [hr, h2, hji]

theorem take_append_drop_get {α : Type} (ptr data : List α) (n : Nat)
    (hp : n ≤ ptr.length) (j : Nat) :
    (ptr.take n ++ data.drop n)[j]? = if j < n then ptr[j]? else data[j]? := by
  have hlen : (ptr.take n).length = n := by simp [hp]
  by_cases hj : j < n
  · rw [List.getElem?_append_left (by omega)]
    simp [hj, List.getElem?_take]
  · rw [List.getElem?_append_right (by omega), hlen]
    simp only [hj, if_false, List.getElem?_drop]
    congr 1
    omega

theorem copy_input_returns {α : Type} (ptr : List α) (n : Nat) (s : State α)
    (it : MicroInterpreter α) (h : Nat)
    (hi : s.interpreter = some it) (hin : s.input = some h)
    (hp : n ≤ ptr.length) (hd : n ≤ it.input0.length) :
    copy_input ptr n 0 s =
      .ok { s with interpreter := some { it with input0 := ptr.take n ++ it.input0.drop n } } := by
  obtain ⟨L, hL, _, hget⟩ := copy_input_ok ptr h n 0 s it hi hin (by omega) (by omega)
  have : L = ptr.take n ++ it.input0.drop n := by
    apply List.ext_getElem?
    intro j
    rw [hget j, take_append_drop_get ptr it.input0 n hp j]
    simp
  rw [hL, this]

theorem copy_input_overrun {α : Type} (ptr : List α) (h : Nat) :
    ∀ (k i : Nat) (s : State α) (it : MicroInterpreter α),
      s.interpreter = some it → s.input = some h →
      i ≤ ptr.length → i ≤ it.input0.length →
      (ptr.length < i + k ∨ it.input0.length < i + k) →
      fault_of (copy_input ptr k i s) = some Fault.out_of_bounds := by
  intro k
  induction k with
  | zero => intro i s it _ _ h1 h2 h3; omega
  | succ k ih =>
    intro i s it hi hin h1 h2 h3
    rw [copy_input, input_data_ready s it h hi hin]
    simp only
    by_cases hip : i < ptr.length
    · rw [List.getElem?_eq_getElem hip]
      simp only
      by_cases hid : i < it.input0.length
      · rw [if_pos hid, set_input_data_ready s it hi]
        apply ih (i + 1)
          { s with interpreter := some { it with input0 := it.input0.set i ptr[i] } }
          { it with input0 := it.input0.set i ptr[i] } rfl hin (by omega)
          (by simp only [List.length_set]; omega)
        simp only [List.length_set]
        omega
      · rw [if_neg hid]
        rfl
    · rw [List.getElem?_eq_none (by omega)]
      rfl


/-- A pull-mode cycle on a pipeline with both handles set gets as far as
`Invoke` whatever `GetImage` and `Invoke` return; what remains is the score
dispatch. -/
theorem loop_upto_invoke {α : Type} (cfg : Config) (env : Env α) (s : State α)
    (it : MicroInterpreter α) (h : Nat)
    (hi : s.interpreter = some it) (hin : s.input = some h) :
    loop cfg env s =
      match respond_step cfg
        { s with
          interpreter := some (env.Invoke (pull_interpreter cfg env it) s.counters).2.1,
          counters := (env.Invoke (pull_interpreter cfg env it) s.counters).2.2,
          trace := s.trace ++
            ([Event.get_image cfg.kNumCols cfg.kNumRows cfg.kNumChannels] ++
             (if (env.GetImage cfg.kNumCols cfg.kNumRows cfg.kNumChannels it.input0).1
                ≠ TfLiteStatus.kTfLiteOk then [Event.log Msg.image_capture_failed] else []) ++
             [Event.invoke] ++
             (if (env.Invoke (pull_interpreter cfg env it) s.counters).1
                ≠ TfLiteStatus.kTfLiteOk then [Event.log Msg.invoke_failed] else [])) } with
      | .error c => .error c
      | .ok s => .ok (s.emit [.task_delay 1]) := by
  unfold pull_interpreter
  by_cases hg : (env.GetImage cfg.kNumCols cfg.kNumRows cfg.kNumChannels it.input0).1
      = TfLiteStatus.kTfLiteOk <;>
  by_cases hv : (env.Invoke { it with input0 :=
      (env.GetImage cfg.kNumCols cfg.kNumRows cfg.kNumChannels it.input0).2 } s.counters).1
      = TfLiteStatus.kTfLiteOk <;>
  simp [loop, input_data, set_input_data, State.emit, invoke_step, hi, hin, hg, hv]


theorem report_and_reset_interpreter {α : Type} (env : Env α) (t : Int) (s : State α) :
    (report_and_reset env t s).interpreter = s.interpreter := rfl

theorem report_and_reset_counters {α : Type} (env : Env α) (t : Int) (s : State α) :
    (report_and_reset env t s).counters = reset_times s.counters := rfl

theorem report_and_reset_trace {α : Type} (env : Env α) (t : Int) (s : State α) :
    ∃ new, (report_and_reset env t s).trace = s.trace ++ new ∧
      invokes new = 0 ∧ responses new = [] ∧ logs new = [] := by
  simp only [report_and_reset, State.emit, List.append_assoc]
  exact ⟨_, rfl, by simp [invokes], by simp [responses], by simp [logs]⟩

/-- A push-mode call on a pipeline with both handles set, a buffer and an input
tensor of at least `kNumCols * kNumRows` elements gets as far as `Invoke`
whatever `Invoke` returns; what remains is the profiling report and the score
dispatch. -/
theorem run_inference_upto_invoke {α : Type} (cfg : Config) (env : Env α) (s : State α)
    (it : MicroInterpreter α) (h : Nat) (ptr : List α)
    (hi : s.interpreter = some it) (hin : s.input = some h)
    (hp : cfg.kNumCols * cfg.kNumRows ≤ ptr.length)
    (hd : cfg.kNumCols * cfg.kNumRows ≤ it.input0.length) :
    run_inference cfg env s ptr =
      respond_step cfg
        (if cfg.COLLECT_CPU_STATS then
          report_and_reset env (env.esp_timer_get_time s.timer_reads)
            { s with
              interpreter := some (env.Invoke (push_interpreter cfg ptr it) s.counters).2.1,
              counters := (env.Invoke (push_interpreter cfg ptr it) s.counters).2.2,
              timer_reads := s.timer_reads + 1,
              trace := s.trace ++
                ([Event.invoke] ++
                 (if (env.Invoke (push_interpreter cfg ptr it) s.counters).1
                    ≠ TfLiteStatus.kTfLiteOk then [Event.log Msg.invoke_failed] else [])) }
        else
          { s with
            interpreter := some (env.Invoke (push_interpreter cfg ptr it) s.counters).2.1,
            counters := (env.Invoke (push_interpreter cfg ptr it) s.counters).2.2,
            trace := s.trace ++
              ([Event.invoke] ++
               (if (env.Invoke (push_interpreter cfg ptr it) s.counters).1
                  ≠ TfLiteStatus.kTfLiteOk then [Event.log Msg.invoke_failed] else [])) }) := by
  rw [run_inference, copy_input_returns ptr _ s it h hi hin hp hd]
  by_cases hc : cfg.COLLECT_CPU_STATS = true <;>
  by_cases hv : (env.Invoke (push_interpreter cfg ptr it) s.counters).1
    = TfLiteStatus.kTfLiteOk <;>
  · simp only [push_interpreter] at hv ⊢
    simp [State.emit, invoke_step, hc, hv]

theorem respond_step_ok {α : Type} (cfg : Config) (s : State α) (it : MicroInterpreter α)
    (hi : s.interpreter = some it) (hout : cfg.kCategoryCount ≤ it.output0.length) :
    respond_step cfg s =
      .ok (s.emit [.respond (it.output0.take cfg.kCategoryCount) cfg.kCategoryLabels]) := by
  simp [respond_step, hi, read_scores_zero _ _ hout]

theorem respond_step_trace {α : Type} (cfg : Config) (s : State α) :
    ∃ new, (final_state (respond_step cfg s)).trace = s.trace ++ new ∧
      invokes new = 0 ∧ logs new = [] := by
  unfold respond_step
  cases hi : s.interpreter with
  | none => exact ⟨[], by simp [final_state], rfl, rfl⟩
  | some it =>
    cases hr : read_scores it.output0 cfg.kCategoryCount 0 [] with
    | none => exact ⟨[], by simp [final_state, hr], rfl, rfl⟩
    | some sc =>
      exact ⟨[.respond sc cfg.kCategoryLabels], by simp [final_state, State.emit, hr],
        by simp [invokes], by simp [logs]⟩

theorem invokes_append {α : Type} (a b : List (Event α)) :
    invokes (a ++ b) = invokes a + invokes b := by
  simp [invokes]

theorem responses_append {α : Type} (a b : List (Event α)) :
    responses (a ++ b) = responses a ++ responses b := by
  simp [responses]

theorem logs_append {α : Type} (a b : List (Event α)) :
    logs (a ++ b) = logs a ++ logs b := by
  simp [logs]

/-- The events of a pull-mode cycle that returns. -/
theorem loop_returns {α : Type} (cfg : Config) (env : Env α) (s : State α)
    (it : MicroInterpreter α) (h : Nat)
    (hi : s.interpreter = some it) (hin : s.input = some h)
    (hout : cfg.kCategoryCount ≤
      (env.Invoke (pull_interpreter cfg env it) s.counters).2.1.output0.length) :
    ∃ s' new, loop cfg env s = .ok s' ∧ s'.trace = s.trace ++ new ∧
      invokes new = 1 ∧
      responses new =
        [((env.Invoke (pull_interpreter cfg env it) s.counters).2.1.output0.take
            cfg.kCategoryCount, cfg.kCategoryLabels)] ∧
      logs new =
        (if (env.GetImage cfg.kNumCols cfg.kNumRows cfg.kNumChannels it.input0).1
              ≠ TfLiteStatus.kTfLiteOk then [Msg.image_capture_failed] else []) ++
        (if (env.Invoke (pull_interpreter cfg env it) s.counters).1
              ≠ TfLiteStatus.kTfLiteOk then [Msg.invoke_failed] else []) := by
  rw [loop_upto_invoke cfg env s it h hi hin, respond_step_ok cfg _ _ rfl hout]
  dsimp only
  simp only [State.emit, List.append_assoc]
  exact ⟨_, _, rfl, rfl, by split_ifs <;> simp [invokes], by split_ifs <;> simp [responses],
    by split_ifs <;> simp [logs]⟩

/-- The events and the final tensors and counters of a push-mode call that
returns. -/
theorem run_inference_returns {α : Type} (cfg : Config) (env : Env α) (s : State α)
    (it : MicroInterpreter α) (h : Nat) (ptr : List α)
    (hi : s.interpreter = some it) (hin : s.input = some h)
    (hp : cfg.kNumCols * cfg.kNumRows ≤ ptr.length)
    (hd : cfg.kNumCols * cfg.kNumRows ≤ it.input0.length)
    (hout : cfg.kCategoryCount ≤
      (env.Invoke (push_interpreter cfg ptr it) s.counters).2.1.output0.length) :
    ∃ s' new, run_inference cfg env s ptr = .ok s' ∧ s'.trace = s.trace ++ new ∧
      invokes new = 1 ∧
      responses new =
        [((env.Invoke (push_interpreter cfg ptr it) s.counters).2.1.output0.take
            cfg.kCategoryCount, cfg.kCategoryLabels)] ∧
      logs new =
        (if (env.Invoke (push_interpreter cfg ptr it) s.counters).1
              ≠ TfLiteStatus.kTfLiteOk then [Msg.invoke_failed] else []) ∧
      s'.interpreter = some (env.Invoke (push_interpreter cfg ptr it) s.counters).2.1 ∧
      s'.counters =
        (if cfg.COLLECT_CPU_STATS then
          reset_times (env.Invoke (push_interpreter cfg ptr it) s.counters).2.2
        else (env.Invoke (push_interpreter cfg ptr it) s.counters).2.2) := by
  rw [run_inference_upto_invoke cfg env s it h ptr hi hin hp hd]
  by_cases hc : cfg.COLLECT_CPU_STATS = true
  · rw [if_pos hc, if_pos hc]
    obtain ⟨rep, hrep, hrep1, hrep2, hrep3⟩ := report_and_reset_trace env
      (env.esp_timer_get_time s.timer_reads)
      { s with
        interpreter := some (env.Invoke (push_interpreter cfg ptr it) s.counters).2.1,
        counters := (env.Invoke (push_interpreter cfg ptr it) s.counters).2.2,
        timer_reads := s.timer_reads + 1,
        trace := s.trace ++
          ([Event.invoke] ++
           (if (env.Invoke (push_interpreter cfg ptr it) s.counters).1
              ≠ TfLiteStatus.kTfLiteOk then [Event.log Msg.invoke_failed] else [])) }
    rw [respond_step_ok cfg _ _ (report_and_reset_interpreter _ _ _) hout]
    simp only [State.emit, hrep, List.append_assoc]
    exact ⟨_, _, rfl, rfl,
      by simp only [invokes_append, hrep1]; split_ifs <;> simp [invokes],
      by simp only [responses_append, hrep2]; split_ifs <;> simp [responses],
      by simp only [logs_append, hrep3]; split_ifs <;> simp [logs],
      rfl, rfl⟩
  · rw [if_neg hc, if_neg hc, respond_step_ok cfg _ _ rfl hout]
    simp only [State.emit, List.append_assoc]
    exact ⟨_, _, rfl, rfl, by split_ifs <;> simp [invokes], by split_ifs <;> simp [responses],
      by split_ifs <;> simp [logs], rfl, by simp⟩


theorem final_trace_then_emit {α : Type} (r : Except (Crash α) (State α))
    (es : List (Event α)) :
    ∃ tail, (final_state (match r with
        | .error c => .error c
        | .ok s => .ok (s.emit es))).trace = (final_state r).trace ++ tail ∧
      (tail = [] ∨ tail = es) := by
  cases r with
  | error c => exact ⟨[], by simp [final_state], Or.inl rfl⟩
  | ok s => exact ⟨es, by simp [final_state, State.emit], Or.inr rfl⟩

theorem fault_of_run_inference_of_copy {α : Type} (cfg : Config) (env : Env α) (s : State α)
    (ptr : List α) (f : Fault)
    (h : fault_of (copy_input ptr (cfg.kNumCols * cfg.kNumRows) 0 s) = some f) :
    fault_of (run_inference cfg env s ptr) = some f := by
  unfold run_inference
  cases hc : copy_input ptr (cfg.kNumCols * cfg.kNumRows) 0 s with
  | error c => simpa [hc, fault_of] using h
  | ok s1 => simp [hc, fault_of] at h

/-- What `reset_times` does to each counter: the eight extern counters become
zero, the two file-scope ones are kept. -/
theorem reset_times_fields (c : Counters) :
    reset_times c = ⟨c.total_time, c.start_time, 0, 0, 0, 0, 0, 0, 0, 0⟩ := rfl

/-- Neither entry point checks its handles: in every state whose interpreter
or input handle is null, `loop` dereferences the null input handle in line 98,
and `run_inference` does so in its first copy iteration when
`kNumCols * kNumRows` is positive; the state at the fault is the state the
call started in. -/
theorem null_handle_call_faults {α : Type} (cfg : Config) (env : Env α) (s : State α)
    (ptr : List α) (h : s.interpreter = none ∨ s.input = none) :
    loop cfg env s = .error ⟨.null_dereference, s⟩ ∧
    (0 < cfg.kNumCols * cfg.kNumRows →
      run_inference cfg env s ptr = .error ⟨.null_dereference, s⟩) := by
  have hd := input_data_none s h
  constructor
  · simp [loop, hd]
  · intro hn
    obtain ⟨n, hn⟩ : ∃ n, cfg.kNumCols * cfg.kNumRows = n + 1 :=
      ⟨_, (Nat.succ_pred_eq_of_pos hn).symm⟩
    rw [run_inference, hn, copy_input, hd]

/-- Startup writes no profiling counter: when `setup` returns, all of them
still hold their initial zero. -/
theorem setup_counters {α : Type} (cfg : Config) (env : Env α) :
    (setup cfg env State.init).counters = Counters.zero := by
  unfold setup
  by_cases h1 : env.esp_psram_get_size = 0
  · simp [h1, State.emit, State.init]
  by_cases h2 : env.model_version = cfg.TFLITE_SCHEMA_VERSION
  swap
  · simp [h1, h2, State.emit, State.init]
  cases h3 : env.heap_caps_malloc (kTensorArenaSize cfg) with
  | none => simp [h1, h2, h3, State.emit, State.init]
  | some a =>
    by_cases h4 : (env.AllocateTensors ⟨[], []⟩).1 = TfLiteStatus.kTfLiteOk
    · by_cases h5 : cfg.CLI_ONLY_INFERENCE = true
      · simp [h1, h2, h3, h4, h5, State.emit, State.init]
      · by_cases h6 : env.InitCamera = TfLiteStatus.kTfLiteOk
        · simp [h1, h2, h3, h4, h5, h6, State.emit, State.init]
        · simp [h1, h2, h3, h4, h5, h6, State.emit, State.init]
    · simp [h1, h2, h3, h4, State.emit, State.init]

/-- The score dispatch leaves the profiling counters alone, also when it stops
at an out-of-bounds read. -/
theorem respond_step_counters {α : Type} (cfg : Config) (s : State α) :
    (final_state (respond_step cfg s)).counters = s.counters := by
  unfold respond_step
  cases hi : s.interpreter with
  | none => simp [final_state]
  | some it =>
    cases hr : read_scores it.output0 cfg.kCategoryCount 0 [] with
    | none => simp [final_state, hr]
    | some sc => simp [final_state, State.emit, hr]

/-! ## The claims -/

/-- Claim C1: started from the initial state, for every outcome of the startup
checks `setup` sets the input handle (to input tensor 0) exactly when the PSRAM
size is non-zero, the model version equals the supported schema version, the
arena allocation returns a non-null block and `AllocateTensors` returns OK;
when any of the four fails the input handle is still null on return. -/
theorem setup_ready_iff {α : Type} (cfg : Config) (env : Env α) :
    ((setup cfg env State.init).input = some 0 ↔
      (env.esp_psram_get_size ≠ 0 ∧ env.model_version = cfg.TFLITE_SCHEMA_VERSION ∧
       (env.heap_caps_malloc (kTensorArenaSize cfg)).isSome = true ∧
       (env.AllocateTensors ⟨[], []⟩).1 = TfLiteStatus.kTfLiteOk)) ∧
    ((setup cfg env State.init).input = none ↔
      ¬ (env.esp_psram_get_size ≠ 0 ∧ env.model_version = cfg.TFLITE_SCHEMA_VERSION ∧
       (env.heap_caps_malloc (kTensorArenaSize cfg)).isSome = true ∧
       (env.AllocateTensors ⟨[], []⟩).1 = TfLiteStatus.kTfLiteOk)) := by
  unfold setup
  by_cases h1 : env.esp_psram_get_size = 0
  · simp [h1, State.emit, State.init]
  by_cases h2 : env.model_version = cfg.TFLITE_SCHEMA_VERSION
  swap
  · simp [h1, h2, State.emit, State.init]
  cases h3 : env.heap_caps_malloc (kTensorArenaSize cfg) with
  | none => simp [h1, h2, h3, State.emit, State.init]
  | some a =>
    by_cases h4 : (env.AllocateTensors ⟨[], []⟩).1 = TfLiteStatus.kTfLiteOk
    · by_cases h5 : cfg.CLI_ONLY_INFERENCE = true
      · simp [h1, h2, h3, h4, h5, State.emit, State.init]
      · by_cases h6 : env.InitCamera = TfLiteStatus.kTfLiteOk
        · simp [h1, h2, h3, h4, h5, h6, State.emit, State.init]
        · simp [h1, h2, h3, h4, h5, h6, State.emit, State.init]
    · simp [h1, h2, h3, h4, State.emit, State.init]

/-- Claim C2, as stated, fails: without PSRAM a model of the supported version
is never loaded; `setup` returns with a null model handle and without calling
`heap_caps_malloc`. -/
theorem setup_matching_version_without_psram :
    env_no_psram.model_version = cfg_small.TFLITE_SCHEMA_VERSION ∧
    (setup cfg_small env_no_psram State.init).model = none ∧
    mallocs (setup cfg_small env_no_psram State.init).trace = 0 := by
  decide

/-- Claim C2, amended: started from the initial state, for every model whose
version differs from the supported schema version `setup` leaves the
interpreter null, allocates no arena block, never calls `AllocateTensors` and
leaves the input handle null; for every model whose version matches, provided
the PSRAM size is non-zero, the model handle is non-null and `setup` calls
`heap_caps_malloc` for the arena, once, with `kTensorArenaSize` bytes. -/
theorem setup_version_gate {α : Type} (cfg : Config) (env : Env α) :
    (env.model_version ≠ cfg.TFLITE_SCHEMA_VERSION →
      (setup cfg env State.init).interpreter = none ∧
      (setup cfg env State.init).tensor_arena = none ∧
      mallocs (setup cfg env State.init).trace = 0 ∧
      tensor_allocations (setup cfg env State.init).trace = 0 ∧
      (setup cfg env State.init).input = none) ∧
    (env.model_version = cfg.TFLITE_SCHEMA_VERSION → env.esp_psram_get_size ≠ 0 →
      (setup cfg env State.init).model = some env.model_version ∧
      mallocs (setup cfg env State.init).trace = 1 ∧
      Event.heap_caps_malloc (kTensorArenaSize cfg) ∈ (setup cfg env State.init).trace) := by
  unfold setup
  constructor
  · intro h2
    by_cases h1 : env.esp_psram_get_size = 0
    · simp [h1, State.emit, State.init, mallocs, tensor_allocations]
    · simp [h1, h2, State.emit, State.init, mallocs, tensor_allocations]
  · intro h2 h1
    cases h3 : env.heap_caps_malloc (kTensorArenaSize cfg) with
    | none => simp [h1, h2, h3, State.emit, State.init, mallocs]
    | some a =>
      by_cases h4 : (env.AllocateTensors ⟨[], []⟩).1 = TfLiteStatus.kTfLiteOk
      · by_cases h5 : cfg.CLI_ONLY_INFERENCE = true
        · simp [h1, h2, h3, h4, h5, State.emit, State.init, mallocs, registered_ops]
        · by_cases h6 : env.InitCamera = TfLiteStatus.kTfLiteOk
          · simp [h1, h2, h3, h4, h5, h6, State.emit, State.init, mallocs, registered_ops]
          · simp [h1, h2, h3, h4, h5, h6, State.emit, State.init, mallocs, registered_ops]
      · simp [h1, h2, h3, h4, State.emit, State.init, mallocs, registered_ops]

/-- Claim C2, amended, at a model of version 2 and at a model of version 3,
against the supported version 3. -/
theorem setup_version_gate_witness :
    ((setup cfg_small env_old_model State.init).interpreter = none ∧
      (setup cfg_small env_old_model State.init).tensor_arena = none ∧
      mallocs (setup cfg_small env_old_model State.init).trace = 0 ∧
      tensor_allocations (setup cfg_small env_old_model State.init).trace = 0 ∧
      (setup cfg_small env_old_model State.init).input = none) ∧
    ((setup cfg_small env_ok State.init).model = some env_ok.model_version ∧
      mallocs (setup cfg_small env_ok State.init).trace = 1 ∧
      Event.heap_caps_malloc (kTensorArenaSize cfg_small) ∈
        (setup cfg_small env_ok State.init).trace) :=
  ⟨(setup_version_gate cfg_small env_old_model).1 (by decide),
   (setup_version_gate cfg_small env_ok).2 (by decide) (by decide)⟩

/-- Claim C3 at the failing input: after a `setup` that aborted for lack of
PSRAM both handles are null, and a subsequent `loop` or `run_inference`, which
the claim says leaves the unset handles alone, dereferences the null input
handle at its first tensor access, for a full-length buffer and for an empty
one alike. -/
theorem faulted_call_dereferences_null :
    (setup cfg_small env_no_psram State.init).interpreter.isNone = true ∧
    (setup cfg_small env_no_psram State.init).input = none ∧
    fault_of (loop cfg_small env_no_psram (setup cfg_small env_no_psram State.init))
      = some Fault.null_dereference ∧
    fault_of (run_inference cfg_small env_no_psram (setup cfg_small env_no_psram State.init)
      [1, 2, 3, 4]) = some Fault.null_dereference ∧
    fault_of (run_inference cfg_small env_no_psram (setup cfg_small env_no_psram State.init)
      []) = some Fault.null_dereference := by
  decide

/-- Claim C4, as stated, fails: in a cycle whose `GetImage` returns an error
status, `Invoke` is called all the same. -/
theorem failed_capture_still_invokes :
    (env_no_image.GetImage 2 2 1 [0, 0, 0, 0]).1 = TfLiteStatus.kTfLiteError ∧
    input_data ready_small = some [0, 0, 0, 0] ∧
    invokes ready_small.trace = 0 ∧
    invokes (final_state (loop cfg_small env_no_image ready_small)).trace = 1 := by
  decide

/-- Claim C4, amended: in pull mode, for every cycle of `loop` on a pipeline
with both handles set in which `GetImage` returns a status other than OK, the
failure is reported ("Image capture failed.") and `Invoke` is still called,
exactly once, in that cycle. -/
theorem loop_invokes_after_failed_capture {α : Type} (cfg : Config) (env : Env α)
    (s : State α) (it : MicroInterpreter α) (h : Nat)
    (hi : s.interpreter = some it) (hin : s.input = some h)
    (hfail : (env.GetImage cfg.kNumCols cfg.kNumRows cfg.kNumChannels it.input0).1
      ≠ TfLiteStatus.kTfLiteOk) :
    ∃ new, (final_state (loop cfg env s)).trace = s.trace ++ new ∧
      Msg.image_capture_failed ∈ logs new ∧ invokes new = 1 := by
  rw [loop_upto_invoke cfg env s it h hi hin]
  obtain ⟨t2, ht2, hcase⟩ := final_trace_then_emit (respond_step cfg
    { s with
      interpreter := some (env.Invoke (pull_interpreter cfg env it) s.counters).2.1,
      counters := (env.Invoke (pull_interpreter cfg env it) s.counters).2.2,
      trace := s.trace ++
        ([Event.get_image cfg.kNumCols cfg.kNumRows cfg.kNumChannels] ++
         (if (env.GetImage cfg.kNumCols cfg.kNumRows cfg.kNumChannels it.input0).1
            ≠ TfLiteStatus.kTfLiteOk then [Event.log Msg.image_capture_failed] else []) ++
         [Event.invoke] ++
         (if (env.Invoke (pull_interpreter cfg env it) s.counters).1
            ≠ TfLiteStatus.kTfLiteOk then [Event.log Msg.invoke_failed] else [])) })
    [Event.task_delay 1]
  obtain ⟨t1, ht1, hinv1, hlog1⟩ := respond_step_trace cfg
    { s with
      interpreter := some (env.Invoke (pull_interpreter cfg env it) s.counters).2.1,
      counters := (env.Invoke (pull_interpreter cfg env it) s.counters).2.2,
      trace := s.trace ++
        ([Event.get_image cfg.kNumCols cfg.kNumRows cfg.kNumChannels] ++
         (if (env.GetImage cfg.kNumCols cfg.kNumRows cfg.kNumChannels it.input0).1
            ≠ TfLiteStatus.kTfLiteOk then [Event.log Msg.image_capture_failed] else []) ++
         [Event.invoke] ++
         (if (env.Invoke (pull_interpreter cfg env it) s.counters).1
            ≠ TfLiteStatus.kTfLiteOk then [Event.log Msg.invoke_failed] else [])) }
  rw [ht2, ht1]
  simp only [if_pos hfail, List.append_assoc]
  refine ⟨_, rfl, ?_, ?_⟩
  · simp [logs]
  · have h2 : invokes t2 = 0 := by
      rcases hcase with h0 | h0 <;> simp [h0, invokes]
    simp only [invokes_append, hinv1, h2]
    split_ifs <;> simp [invokes]

/-- Claim C4, amended, at a ready pipeline whose camera fails. -/
theorem loop_invokes_after_failed_capture_witness :
    ∃ new, (final_state (loop cfg_small env_no_image ready_small)).trace =
        ready_small.trace ++ new ∧
      Msg.image_capture_failed ∈ logs new ∧ invokes new = 1 :=
  loop_invokes_after_failed_capture cfg_small env_no_image ready_small
    ⟨[0, 0, 0, 0], [0, 0]⟩ 0 rfl rfl (by decide)


/-- Claim C5, as stated, fails: in a cycle and in a push-mode call whose
`Invoke` returns an error status, `RespondToDetection` is called once, not
zero times. -/
theorem failed_invoke_still_responds :
    (env_invoke_fails.Invoke ⟨[7, 7, 7, 7], [0, 0]⟩ Counters.zero).1
      = TfLiteStatus.kTfLiteError ∧
    responses ready_small.trace = [] ∧
    responses (final_state (loop cfg_small env_invoke_fails ready_small)).trace
      = [([0, 0], ["apple", "banana"])] ∧
    responses (final_state
      (run_inference cfg_small env_invoke_fails ready_small [7, 7, 7, 7])).trace
      = [([0, 0], ["apple", "banana"])] := by
  decide

/-- Claim C5, amended: for every call of `loop` or `run_inference` that gets
through its tensor accesses (both handles set, buffer and input tensor of at
least `kNumCols * kNumRows` elements, output tensor of at least
`kCategoryCount` elements), `RespondToDetection` is called exactly once,
whether `Invoke` returned OK or a failure status; a failure of `Invoke` is only
reported ("Invoke failed."), and the responder then receives the first
`kCategoryCount` elements of the output tensor as the failed `Invoke` left
them, with `kCategoryLabels`. -/
theorem respond_once_per_call {α : Type} (cfg : Config) (env : Env α) (s : State α)
    (it : MicroInterpreter α) (h : Nat) (ptr : List α)
    (hi : s.interpreter = some it) (hin : s.input = some h)
    (hout_pull : cfg.kCategoryCount ≤
      (env.Invoke (pull_interpreter cfg env it) s.counters).2.1.output0.length)
    (hp : cfg.kNumCols * cfg.kNumRows ≤ ptr.length)
    (hd : cfg.kNumCols * cfg.kNumRows ≤ it.input0.length)
    (hout_push : cfg.kCategoryCount ≤
      (env.Invoke (push_interpreter cfg ptr it) s.counters).2.1.output0.length) :
    (∃ s' new, loop cfg env s = .ok s' ∧ s'.trace = s.trace ++ new ∧
      invokes new = 1 ∧ (responses new).length = 1 ∧
      responses new =
        [((env.Invoke (pull_interpreter cfg env it) s.counters).2.1.output0.take
            cfg.kCategoryCount, cfg.kCategoryLabels)] ∧
      ((env.Invoke (pull_interpreter cfg env it) s.counters).1 ≠ TfLiteStatus.kTfLiteOk →
        Msg.invoke_failed ∈ logs new)) ∧
    (∃ s' new, run_inference cfg env s ptr = .ok s' ∧ s'.trace = s.trace ++ new ∧
      invokes new = 1 ∧ (responses new).length = 1 ∧
      responses new =
        [((env.Invoke (push_interpreter cfg ptr it) s.counters).2.1.output0.take
            cfg.kCategoryCount, cfg.kCategoryLabels)] ∧
      ((env.Invoke (push_interpreter cfg ptr it) s.counters).1 ≠ TfLiteStatus.kTfLiteOk →
        Msg.invoke_failed ∈ logs new)) := by
  constructor
  · obtain ⟨s', new, h1, h2, h3, h4, h5⟩ := loop_returns cfg env s it h hi hin hout_pull
    refine ⟨s', new, h1, h2, h3, by rw [h4]; rfl, h4, ?_⟩
    intro hf
    rw [h5, if_pos hf]
    simp
  · obtain ⟨s', new, h1, h2, h3, h4, h5, _, _⟩ :=
      run_inference_returns cfg env s it h ptr hi hin hp hd hout_push
    refine ⟨s', new, h1, h2, h3, by rw [h4]; rfl, h4, ?_⟩
    intro hf
    rw [h5, if_pos hf]
    simp

/-- Claim C5, amended, at a ready pipeline whose `Invoke` fails. -/
theorem respond_once_per_call_witness :
    (∃ s' new, loop cfg_small env_invoke_fails ready_small = .ok s' ∧
      s'.trace = ready_small.trace ++ new ∧
      invokes new = 1 ∧ (responses new).length = 1 ∧
      responses new =
        [((env_invoke_fails.Invoke
            (pull_interpreter cfg_small env_invoke_fails ⟨[0, 0, 0, 0], [0, 0]⟩)
            ready_small.counters).2.1.output0.take cfg_small.kCategoryCount,
          cfg_small.kCategoryLabels)] ∧
      ((env_invoke_fails.Invoke
          (pull_interpreter cfg_small env_invoke_fails ⟨[0, 0, 0, 0], [0, 0]⟩)
          ready_small.counters).1 ≠ TfLiteStatus.kTfLiteOk →
        Msg.invoke_failed ∈ logs new)) ∧
    (∃ s' new, run_inference cfg_small env_invoke_fails ready_small [7, 7, 7, 7] = .ok s' ∧
      s'.trace = ready_small.trace ++ new ∧
      invokes new = 1 ∧ (responses new).length = 1 ∧
      responses new =
        [((env_invoke_fails.Invoke
            (push_interpreter cfg_small [7, 7, 7, 7] ⟨[0, 0, 0, 0], [0, 0]⟩)
            ready_small.counters).2.1.output0.take cfg_small.kCategoryCount,
          cfg_small.kCategoryLabels)] ∧
      ((env_invoke_fails.Invoke
          (push_interpreter cfg_small [7, 7, 7, 7] ⟨[0, 0, 0, 0], [0, 0]⟩)
          ready_small.counters).1 ≠ TfLiteStatus.kTfLiteOk →
        Msg.invoke_failed ∈ logs new)) :=
  respond_once_per_call cfg_small env_invoke_fails ready_small ⟨[0, 0, 0, 0], [0, 0]⟩ 0
    [7, 7, 7, 7] rfl rfl (by decide) (by decide) (by decide) (by decide)

/-- Claim C6, as stated, fails: a push-mode call with a buffer of 5 elements
for an input tensor of 4 does not fail; it copies the first 4 elements and
performs `Invoke`. -/
theorem long_buffer_is_truncated :
    input_data ready_small = some [0, 0, 0, 0] ∧
    [10, 20, 30, 40, 50].length ≠ 4 ∧
    fault_of (run_inference cfg_small env_ok ready_small [10, 20, 30, 40, 50]) = none ∧
    input_data (final_state
      (run_inference cfg_small env_ok ready_small [10, 20, 30, 40, 50]))
      = some [10, 20, 30, 40] ∧
    invokes (final_state
      (run_inference cfg_small env_ok ready_small [10, 20, 30, 40, 50])).trace = 1 := by
  decide

/-- Claim C6, amended: `run_inference` receives no length and checks none. On
a pipeline with both handles set and an input tensor of at least
`kNumCols * kNumRows` elements, every buffer of at least `kNumCols * kNumRows`
elements, longer ones included, has exactly its first `kNumCols * kNumRows`
elements copied, after which `Invoke` is performed once on that tensor; every
shorter buffer is read past its end (undefined behaviour). -/
theorem run_inference_checks_no_length {α : Type} (cfg : Config) (env : Env α)
    (s : State α) (it : MicroInterpreter α) (h : Nat) (ptr : List α)
    (hi : s.interpreter = some it) (hin : s.input = some h)
    (hd : cfg.kNumCols * cfg.kNumRows ≤ it.input0.length) :
    (cfg.kNumCols * cfg.kNumRows ≤ ptr.length →
      cfg.kCategoryCount ≤
        (env.Invoke (push_interpreter cfg ptr it) s.counters).2.1.output0.length →
      (push_interpreter cfg ptr it).input0 =
        ptr.take (cfg.kNumCols * cfg.kNumRows) ++
          it.input0.drop (cfg.kNumCols * cfg.kNumRows) ∧
      ∃ s' new, run_inference cfg env s ptr = .ok s' ∧ s'.trace = s.trace ++ new ∧
        invokes new = 1 ∧
        s'.interpreter = some (env.Invoke (push_interpreter cfg ptr it) s.counters).2.1) ∧
    (ptr.length < cfg.kNumCols * cfg.kNumRows →
      fault_of (run_inference cfg env s ptr) = some Fault.out_of_bounds) := by
  constructor
  · intro hp hout
    obtain ⟨s', new, h1, h2, h3, _, _, h6, _⟩ :=
      run_inference_returns cfg env s it h ptr hi hin hp hd hout
    exact ⟨rfl, s', new, h1, h2, h3, h6⟩
  · intro hshort
    apply fault_of_run_inference_of_copy
    exact copy_input_overrun ptr h _ 0 s it hi hin (Nat.zero_le _) (Nat.zero_le _)
      (Or.inl (by omega))

/-- Claim C6, amended, at a buffer of 5 and a buffer of 3 elements for an input
tensor of 4. -/
theorem run_inference_checks_no_length_witness :
    ((push_interpreter cfg_small ([10, 20, 30, 40, 50] : List Int)
          ⟨[0, 0, 0, 0], [0, 0]⟩).input0 =
        ([10, 20, 30, 40, 50] : List Int).take (cfg_small.kNumCols * cfg_small.kNumRows) ++
          ([0, 0, 0, 0] : List Int).drop (cfg_small.kNumCols * cfg_small.kNumRows) ∧
      ∃ s' new, run_inference cfg_small env_ok ready_small [10, 20, 30, 40, 50] = .ok s' ∧
        s'.trace = ready_small.trace ++ new ∧ invokes new = 1 ∧
        s'.interpreter = some (env_ok.Invoke
          (push_interpreter cfg_small [10, 20, 30, 40, 50] ⟨[0, 0, 0, 0], [0, 0]⟩)
          ready_small.counters).2.1) ∧
    fault_of (run_inference cfg_small env_ok ready_small [10, 20, 30])
      = some Fault.out_of_bounds :=
  ⟨(run_inference_checks_no_length cfg_small env_ok ready_small ⟨[0, 0, 0, 0], [0, 0]⟩ 0
      [10, 20, 30, 40, 50] rfl rfl (by decide)).1 (by decide) (by decide),
   (run_inference_checks_no_length cfg_small env_ok ready_small ⟨[0, 0, 0, 0], [0, 0]⟩ 0
      [10, 20, 30] rfl rfl (by decide)).2 (by decide)⟩

/-- Claim C8: for every content of the output tensor, a call of `loop` or of
`run_inference` that gets through its tensor accesses hands the responder one
score vector of exactly `kCategoryCount` entries whose entry `i` is element `i`
of the output tensor as `Invoke` left it, unchanged, together with the label
list `kCategoryLabels`. -/
theorem scores_copy_output_head {α : Type} (cfg : Config) (env : Env α) (s : State α)
    (it : MicroInterpreter α) (h : Nat) (ptr : List α)
    (hi : s.interpreter = some it) (hin : s.input = some h)
    (hout_pull : cfg.kCategoryCount ≤
      (env.Invoke (pull_interpreter cfg env it) s.counters).2.1.output0.length)
    (hp : cfg.kNumCols * cfg.kNumRows ≤ ptr.length)
    (hd : cfg.kNumCols * cfg.kNumRows ≤ it.input0.length)
    (hout_push : cfg.kCategoryCount ≤
      (env.Invoke (push_interpreter cfg ptr it) s.counters).2.1.output0.length) :
    (∃ s' new scores, loop cfg env s = .ok s' ∧ s'.trace = s.trace ++ new ∧
      responses new = [(scores, cfg.kCategoryLabels)] ∧
      scores.length = cfg.kCategoryCount ∧
      ∀ i, i < cfg.kCategoryCount → scores[i]? =
        (env.Invoke (pull_interpreter cfg env it) s.counters).2.1.output0[i]?) ∧
    (∃ s' new scores, run_inference cfg env s ptr = .ok s' ∧ s'.trace = s.trace ++ new ∧
      responses new = [(scores, cfg.kCategoryLabels)] ∧
      scores.length = cfg.kCategoryCount ∧
      ∀ i, i < cfg.kCategoryCount → scores[i]? =
        (env.Invoke (push_interpreter cfg ptr it) s.counters).2.1.output0[i]?) := by
  constructor
  · obtain ⟨s', new, h1, h2, _, h4, _⟩ := loop_returns cfg env s it h hi hin hout_pull
    refine ⟨s', new, _, h1, h2, h4, ?_, ?_⟩
    · simp [hout_pull]
    · intro i hlt
      simp [List.getElem?_take, hlt]
  · obtain ⟨s', new, h1, h2, _, h4, _⟩ :=
      run_inference_returns cfg env s it h ptr hi hin hp hd hout_push
    refine ⟨s', new, _, h1, h2, h4, ?_, ?_⟩
    · simp [hout_push]
    · intro i hlt
      simp [List.getElem?_take, hlt]

/-- Claim C8 at a ready pipeline with four input and two output elements. -/
theorem scores_copy_output_head_witness :
    (∃ s' new scores, loop cfg_small env_ok ready_small = .ok s' ∧
      s'.trace = ready_small.trace ++ new ∧
      responses new = [(scores, cfg_small.kCategoryLabels)] ∧
      scores.length = cfg_small.kCategoryCount ∧
      ∀ i, i < cfg_small.kCategoryCount → scores[i]? =
        (env_ok.Invoke (pull_interpreter cfg_small env_ok ⟨[0, 0, 0, 0], [0, 0]⟩)
          ready_small.counters).2.1.output0[i]?) ∧
    (∃ s' new scores, run_inference cfg_small env_ok ready_small [10, 20, 30, 40] = .ok s' ∧
      s'.trace = ready_small.trace ++ new ∧
      responses new = [(scores, cfg_small.kCategoryLabels)] ∧
      scores.length = cfg_small.kCategoryCount ∧
      ∀ i, i < cfg_small.kCategoryCount → scores[i]? =
        (env_ok.Invoke (push_interpreter cfg_small [10, 20, 30, 40] ⟨[0, 0, 0, 0], [0, 0]⟩)
          ready_small.counters).2.1.output0[i]?) :=
  scores_copy_output_head cfg_small env_ok ready_small ⟨[0, 0, 0, 0], [0, 0]⟩ 0
    [10, 20, 30, 40] rfl rfl (by decide) (by decide) (by decide) (by decide)

/-- Claim C9: with profiling enabled, for every value of the eight extern
counters before the call and every way the operator routines update them
during `Invoke` (not at all included), immediately after the report-and-reset
step of `run_inference` every process-wide counter reads exactly zero: total,
activation, quantize, conv, pooling, reshape, fully-connected, softmax,
dequantize. The eight extern counters are zeroed by lines 193-200. The
file-scope `total_time` reads zero because it holds the zero of line 118 before
the call and no operator routine writes it: line 192 assigns the local
variable of the same name, never the file-scope one. -/
theorem counters_zero_after_reset {α : Type} (cfg : Config) (env : Env α) (s : State α)
    (it : MicroInterpreter α) (h : Nat) (ptr : List α)
    (hstats : cfg.COLLECT_CPU_STATS = true)
    (hi : s.interpreter = some it) (hin : s.input = some h)
    (hp : cfg.kNumCols * cfg.kNumRows ≤ ptr.length)
    (hd : cfg.kNumCols * cfg.kNumRows ≤ it.input0.length)
    (hzero : s.counters.total_time = 0)
    (hkeep : (env.Invoke (push_interpreter cfg ptr it) s.counters).2.2.total_time
      = s.counters.total_time) :
    (final_state (run_inference cfg env s ptr)).counters.total_time = 0 ∧
    (final_state (run_inference cfg env s ptr)).counters.act_total_time = 0 ∧
    (final_state (run_inference cfg env s ptr)).counters.q_total_time = 0 ∧
    (final_state (run_inference cfg env s ptr)).counters.conv_total_time = 0 ∧
    (final_state (run_inference cfg env s ptr)).counters.pooling_total_time = 0 ∧
    (final_state (run_inference cfg env s ptr)).counters.resh_total_time = 0 ∧
    (final_state (run_inference cfg env s ptr)).counters.fc_total_time = 0 ∧
    (final_state (run_inference cfg env s ptr)).counters.softmax_total_time = 0 ∧
    (final_state (run_inference cfg env s ptr)).counters.dq_total_time = 0 := by
  rw [run_inference_upto_invoke cfg env s it h ptr hi hin hp hd, if_pos hstats,
    respond_step_counters, report_and_reset_counters, reset_times_fields]
  exact ⟨hkeep.trans hzero, rfl, rfl, rfl, rfl, rfl, rfl, rfl, rfl⟩

/-- Claim C9 at a ready pipeline whose extern counters are non-zero before the
call and are increased again during `Invoke`. -/
theorem counters_zero_after_reset_witness :
    (final_state (run_inference cfg_stats env_profiled ready_profiled
      [10, 20, 30, 40])).counters.total_time = 0 ∧
    (final_state (run_inference cfg_stats env_profiled ready_profiled
      [10, 20, 30, 40])).counters.act_total_time = 0 ∧
    (final_state (run_inference cfg_stats env_profiled ready_profiled
      [10, 20, 30, 40])).counters.q_total_time = 0 ∧
    (final_state (run_inference cfg_stats env_profiled ready_profiled
      [10, 20, 30, 40])).counters.conv_total_time = 0 ∧
    (final_state (run_inference cfg_stats env_profiled ready_profiled
      [10, 20, 30, 40])).counters.pooling_total_time = 0 ∧
    (final_state (run_inference cfg_stats env_profiled ready_profiled
      [10, 20, 30, 40])).counters.resh_total_time = 0 ∧
    (final_state (run_inference cfg_stats env_profiled ready_profiled
      [10, 20, 30, 40])).counters.fc_total_time = 0 ∧
    (final_state (run_inference cfg_stats env_profiled ready_profiled
      [10, 20, 30, 40])).counters.softmax_total_time = 0 ∧
    (final_state (run_inference cfg_stats env_profiled ready_profiled
      [10, 20, 30, 40])).counters.dq_total_time = 0 :=
  counters_zero_after_reset cfg_stats env_profiled ready_profiled ⟨[0, 0, 0, 0], [0, 0]⟩ 0
    [10, 20, 30, 40] rfl rfl rfl (by decide) (by decide) rfl rfl

/-- Claim C10, as stated, fails: for the quantize kind the reported intensity
times the operation count 1387 is not the memory traffic 46080, and is not an
integer at all. -/
theorem intensity_times_count_is_not_traffic :
    operational_intensity OpKind.Quantize * (operation_count OpKind.Quantize : ℚ)
      ≠ (memory_traffic OpKind.Quantize : ℚ) ∧
    ¬ ∃ m : ℕ, quantize_operational_intensity * 1387 = (m : ℚ) := by
  constructor
  · norm_num [operational_intensity, quantize_operational_intensity, operation_count,
      memory_traffic]
  · rintro ⟨m, hm⟩
    have h1 : (1923769 : ℚ) = 46080 * (m : ℚ) := by
      rw [← hm]
      norm_num [quantize_operational_intensity]
    have h2 : 1923769 = 46080 * m := by exact_mod_cast h1
    omega

/-- Claim C10, amended: for each of the seven operator kinds the report
computes the operational intensity as the kind's operation count divided by
its memory traffic (as exact rationals, intensity x memory traffic = operation
count), and, for a non-zero counter, the throughput as that same operation
count (1387, 144, 145, 395, 125, 1219, 442) divided by the elapsed seconds
(counter microseconds / 1,000,000). -/
theorem intensity_is_count_over_traffic :
    (∀ k : OpKind,
      operational_intensity k * (memory_traffic k : ℚ) = (operation_count k : ℚ)) ∧
    (∀ (k : OpKind) (c : Counters), elapsed_micros c k ≠ 0 →
      performance c k * ((elapsed_micros c k : ℚ) / 1000000) = (operation_count k : ℚ)) := by
  constructor
  · intro k
    cases k <;>
    norm_num [operational_intensity, memory_traffic, operation_count,
      quantize_operational_intensity, conv2d_operational_intensity,
      maxpool2d_operational_intensity, reshape_operational_intensity,
      fullyconnected_operational_intensity, softmax_operational_intensity,
      dequantize_operational_intensity]
  · intro k c hne
    have hq : ((elapsed_micros c k : ℚ) / 1000000) ≠ 0 := by
      apply div_ne_zero
      · exact_mod_cast hne
      · norm_num
    cases k <;>
    · simp only [performance, elapsed_micros, operation_count, quantize_performance,
        conv2d_performance, maxpool2d_performance, reshape_performance,
        fullyconnected_performance, softmax_performance, dequantize_performance] at hq ⊢
      rw [div_mul_cancel₀ _ hq]
      norm_num

/-- Claim C10, amended, at the softmax kind with a counter of 13 microseconds. -/
theorem intensity_is_count_over_traffic_witness :
    operational_intensity OpKind.Softmax * (memory_traffic OpKind.Softmax : ℚ)
      = (operation_count OpKind.Softmax : ℚ) ∧
    performance ready_stats.counters OpKind.Softmax *
        ((elapsed_micros ready_stats.counters OpKind.Softmax : ℚ) / 1000000)
      = (operation_count OpKind.Softmax : ℚ) :=
  ⟨intensity_is_count_over_traffic.1 OpKind.Softmax,
   intensity_is_count_over_traffic.2 OpKind.Softmax ready_stats.counters (by decide)⟩

end FruitDetection
